import Mathlib

/-!
Verification of the fin-wise-app backend (src/backend.py) against its
natural-language specification.

Modelling conventions:
* Python `float` arithmetic is modelled with exact rationals (`ℚ`); the
  confidence-score computation only involves small additions, divisions and
  a `min`, for which the rational value is the intended one.
* External collaborators (the Ollama generation model, the embedding service,
  the Redis vector store, the `pypdf`/`python-docx`/`openpyxl` byte-level
  loaders and the LangChain text splitter) are parameters of the embedded
  functions: the embedding captures exactly the control flow and data flow of
  the repository code around those calls.
* A raised `HTTPException(status_code, detail)` is modelled as
  `Except.error (HTTPError.mk status_code detail)`.
* Side effects on the vector store are made observable as explicit traces
  (the list of `add_documents` batches) or as explicit state passing
  (the Redis key space in `clear_all_documents`).
-/

namespace FinWise

/-- `HTTPException(status_code=..., detail=...)` raised by the FastAPI handlers. -/
structure HTTPError where
  status_code : Nat
  detail : String
deriving DecidableEq, Repr

/-- Request body of `POST /api/v1/chatbot/chat` (class `ChatRequest`). -/
structure ChatRequest where
  message : String
  user_id : String := "anonymous"
deriving DecidableEq, Repr

/-- Response body of `POST /api/v1/chatbot/chat` (class `ChatResponse`);
`confidence_score` is a Python float, modelled as a rational. -/
structure ChatResponse where
  response : String
  user_id : String
  confidence_score : ℚ
  suggest_ticket : Bool
deriving DecidableEq, Repr

/-- Response body of `GET /health` (class `HealthResponse`). -/
structure HealthResponse where
  status : String
  service : String
  timestamp : String
deriving DecidableEq, Repr

/-- Response body of the upload endpoint (class `UploadResponse`). -/
structure UploadResponse where
  success : Bool
  message : String
  documents_processed : Nat
  total_chunks_created : Nat
deriving DecidableEq, Repr

/-- Response body of the clear-all endpoint (class `ClearResponse`). -/
structure ClearResponse where
  success : Bool
  message : String
deriving DecidableEq, Repr

/-- The per-chunk metadata dictionary built in `upload_multiple_documents`
(keys `fileName`, `fileType`, `userId`, `chunkIndex`, `totalChunks`,
`category`, `uploadTimestamp`). -/
structure ChunkMetadata where
  fileName : String
  fileType : String
  userId : String
  chunkIndex : Nat
  totalChunks : Nat
  category : String
  uploadTimestamp : String
deriving DecidableEq, Repr

/-- A LangChain `Document`: a text payload plus metadata.  Retrieval results
and ingestion chunks both use this shape; `chat` only reads `page_content`. -/
structure LCDoc where
  page_content : String
  metadata : Option ChunkMetadata := none
deriving DecidableEq, Repr

/-- Python `sep.join(xs)`: empty for `[]`, the sole element for `[x]`,
elements interleaved with `sep` otherwise. -/
def joinSep (sep : String) : List String → String
  | [] => ""
  | [x] => x
  | x :: y :: xs => x ++ sep ++ joinSep sep (y :: xs)

/-- The fixed placeholder substituted when the joined context is empty
(backend.py line 172). -/
def NO_CONTEXT_PLACEHOLDER : String := "No specific context available."

/-- Steps 2 of `chat` (backend.py lines 169-172): join the retrieved chunks'
texts with the separator, substituting the placeholder when the joined string
is falsy (empty). -/
def documentsContext (relevant_docs : List LCDoc) : String :=
  let doc_texts := relevant_docs.map (fun d => d.page_content)
  let joined := joinSep "\n---\n" doc_texts
  if joined = "" then NO_CONTEXT_PLACEHOLDER else joined

/-- Step 5 of `chat` (backend.py line 189):
`0.2 if not relevant_docs else min(1.0, 0.5 + (len(relevant_docs) / 3.0 * 0.5))`,
as a function of the retrieved-document count. -/
def confidenceScore (n : Nat) : ℚ :=
  if n = 0 then 1/5 else min 1 (1/2 + (n : ℚ) / 3 * (1/2))

/-- The fixed human-escalation notice appended when a ticket is suggested
(backend.py line 193). -/
def ESCALATION_NOTICE : String :=
  "\n\n💡 **Need more help?** Contact our customer service team for personalized assistance."

/-- The handler body of `POST /api/v1/chatbot/chat` after a successful
retrieval, with the external pieces as parameters: `relevant_docs` is the
result of `retriever.invoke(request.message)` (top-k retrieval, k = 3) and
`gen ctx query` is the text produced by `chain.invoke({"documents": ctx,
"query": query})`.  Mirrors backend.py lines 169-200. -/
def chat (gen : String → String → String) (relevant_docs : List LCDoc)
    (request : ChatRequest) : ChatResponse :=
  let ctx := documentsContext relevant_docs
  let response_text := gen ctx request.message
  let confidence_score := confidenceScore relevant_docs.length
  let suggest_ticket : Bool := decide (confidence_score < 1/2)
  let response_text :=
    if suggest_ticket then response_text ++ ESCALATION_NOTICE else response_text
  { response := response_text
    user_id := request.user_id
    confidence_score := confidence_score
    suggest_ticket := suggest_ticket }

/- Basic facts about the confidence heuristic. -/

theorem confidenceScore_zero : confidenceScore 0 = 1/5 := rfl

theorem confidenceScore_pos_eq (n : Nat) (h : n ≠ 0) :
    confidenceScore n = min 1 (1/2 + (n : ℚ) / 3 * (1/2)) := by
  simp [confidenceScore, h]

theorem confidenceScore_le_one (n : Nat) : confidenceScore n ≤ 1 := by
  unfold confidenceScore
  split
  · norm_num
  · exact min_le_left _ _

theorem half_le_confidenceScore_pos (n : Nat) (h : n ≠ 0) :
    1/2 ≤ confidenceScore n := by
  rw [confidenceScore_pos_eq n h]
  refine le_min (by norm_num) ?_
  have hn : (0 : ℚ) ≤ (n : ℚ) / 3 * (1/2) := by positivity
  linarith

theorem two_thirds_le_confidenceScore_pos (n : Nat) (h : n ≠ 0) :
    2/3 ≤ confidenceScore n := by
  rw [confidenceScore_pos_eq n h]
  have h1 : (1 : ℚ) ≤ (n : ℚ) := by exact_mod_cast Nat.one_le_iff_ne_zero.mpr h
  refine le_min (by norm_num) (by linarith)

theorem confidenceScore_mono {m n : Nat} (h : m ≤ n) :
    confidenceScore m ≤ confidenceScore n := by
  rcases Nat.eq_zero_or_pos m with hm | hm
  · subst hm
    rcases Nat.eq_zero_or_pos n with hn | hn
    · subst hn; exact le_refl _
    · calc confidenceScore 0 = 1/5 := rfl
        _ ≤ 1/2 := by norm_num
        _ ≤ confidenceScore n := half_le_confidenceScore_pos n (Nat.pos_iff_ne_zero.mp hn)
  · have hn : 0 < n := lt_of_lt_of_le hm h
    rw [confidenceScore_pos_eq m (Nat.pos_iff_ne_zero.mp hm),
        confidenceScore_pos_eq n (Nat.pos_iff_ne_zero.mp hn)]
    refine min_le_min (le_refl 1) ?_
    have hmn : (m : ℚ) ≤ (n : ℚ) := by exact_mod_cast h
    have : (m : ℚ) / 3 * (1/2) ≤ (n : ℚ) / 3 * (1/2) := by linarith
    linarith

theorem confidenceScore_eq_floor_iff (n : Nat) : confidenceScore n = 1/5 ↔ n = 0 := by
  constructor
  · intro h
    by_contra hn
    have := half_le_confidenceScore_pos n hn
    rw [h] at this
    norm_num at this
  · intro h; subst h; rfl

/-! ## Service initialization and the FastAPI dependency (backend.py lines 68-119) -/

/-- Which of the three global client handles were successfully initialized
(`vectorstore`, `chat_model`, `redis_client`); on an initialization failure all
three are set to `None` (falsy), modelled as `false`. -/
structure Services where
  vectorstore : Bool
  chat_model : Bool
  redis_client : Bool
deriving DecidableEq, Repr

/-- The 503 error raised by `get_services` (backend.py lines 115-118). -/
def SERVICES_UNAVAILABLE : HTTPError :=
  ⟨503, "Core services (Ollama/Redis) are not available."⟩

/-- `get_services` (backend.py lines 113-119): raise 503 unless all three
client handles are truthy. -/
def get_services (s : Services) : Except HTTPError Unit :=
  if !s.vectorstore || !s.chat_model || !s.redis_client then
    .error SERVICES_UNAVAILABLE
  else .ok ()

/-! ## Document ingestion (backend.py lines 207-286) -/

/-- A FastAPI `UploadFile`: name, declared MIME type, raw bytes. -/
structure UploadFile where
  filename : String
  content_type : String
  contents : List Nat
deriving DecidableEq, Repr

/-- Python `c.isspace()` for the ASCII whitespace characters. -/
def isPySpace (c : Char) : Bool :=
  c = ' ' || c = '\t' || c = '\n' || c = '\x0d' || c = '\x0b' || c = '\x0c'

/-- The skip condition `not extracted_text or extracted_text.isspace()`
(backend.py line 245): true iff every character is whitespace (in particular
for the empty string, which is falsy). -/
def isBlankText (s : String) : Bool := s.toList.all isPySpace

/-- The `parsers` dictionary of `upload_multiple_documents` (backend.py lines
226-232), keyed by MIME type.  The three byte-level extractors (`parse_pdf`,
`parse_docx`, `parse_xlsx` composed with the external loader) are parameters;
a parse that raises is an `Except.error`. -/
def parsersDict (pdfP docxP xlsxP : List Nat → Except String String) :
    String → Option (List Nat → Except String String) := fun ct =>
  if ct = "application/pdf" then some pdfP
  else if ct = "application/vnd.openxmlformats-officedocument.wordprocessingml.document" then
    some docxP
  else if ct = "application/msword" then some docxP
  else if ct = "application/vnd.openxmlformats-officedocument.spreadsheetml.sheet" then
    some xlsxP
  else if ct = "application/vnd.ms-excel" then some xlsxP
  else none

/-- Step 3 of the per-file loop (backend.py lines 253-263): one LangChain
document per chunk, with the metadata dictionary built there. -/
def chunkDocs (file : UploadFile) (user_id now : String) (chunks : List String) :
    List LCDoc :=
  chunks.enum.map (fun ic =>
    { page_content := ic.2
      metadata := some
        { fileName := file.filename
          fileType := file.content_type
          userId := user_id
          chunkIndex := ic.1
          totalChunks := chunks.length
          category := "financial_literacy"
          uploadTimestamp := now } })

/-- The per-file loop of `upload_multiple_documents` (backend.py lines
234-270), threading the accumulators `total_chunks`, `docs_processed` and
`all_langchain_docs`.  An unsupported MIME type is skipped; a parse exception
is re-raised as HTTP 500, aborting the whole loop; blank extracted text is
skipped; otherwise the text is chunked by the external splitter `split` and
the tagged chunks are accumulated. -/
def processFiles (ps : String → Option (List Nat → Except String String))
    (split : String → List String) (user_id now : String) :
    List UploadFile → Nat → Nat → List LCDoc →
    Except HTTPError (Nat × Nat × List LCDoc)
  | [], total_chunks, docs_processed, acc => .ok (total_chunks, docs_processed, acc)
  | file :: rest, total_chunks, docs_processed, acc =>
    match ps file.content_type with
    | none => processFiles ps split user_id now rest total_chunks docs_processed acc
    | some pf =>
      match pf file.contents with
      | .error _ => .error ⟨500, "Error processing file: " ++ file.filename⟩
      | .ok extracted_text =>
        if isBlankText extracted_text then
          processFiles ps split user_id now rest total_chunks docs_processed acc
        else
          let chunks := split extracted_text
          processFiles ps split user_id now rest
            (total_chunks + chunks.length) (docs_processed + 1)
            (acc ++ chunkDocs file user_id now chunks)

/-- `upload_multiple_documents` (backend.py lines 207-286).  The first
component of the result is the trace of `vectorstore.add_documents` calls
(each entry one batch argument); the second is the HTTP outcome.  The batch
upsert happens only after the whole loop succeeds, and only when the
accumulated list is non-empty; `addDocs` is the external vector-store write,
which may itself raise. -/
def upload_multiple_documents (pdfP docxP xlsxP : List Nat → Except String String)
    (split : String → List String) (addDocs : List LCDoc → Except String Unit)
    (now : String) (files : List UploadFile) (user_id : String) :
    List (List LCDoc) × Except HTTPError UploadResponse :=
  if files.isEmpty then ([], .error ⟨400, "No files provided"⟩)
  else
    match processFiles (parsersDict pdfP docxP xlsxP) split user_id now files 0 0 [] with
    | .error e => ([], .error e)
    | .ok (total_chunks, docs_processed, all_langchain_docs) =>
      let resp : UploadResponse :=
        { success := true
          message := "Successfully processed " ++ toString docs_processed ++
            " files into " ++ toString total_chunks ++ " chunks."
          documents_processed := docs_processed
          total_chunks_created := total_chunks }
      if all_langchain_docs.isEmpty then ([], .ok resp)
      else
        match addDocs all_langchain_docs with
        | .error _ => ([all_langchain_docs], .error ⟨500, "Error adding documents to vector store."⟩)
        | .ok _ => ([all_langchain_docs], .ok resp)

/-! ## Admin operations (backend.py lines 289-325) -/

/-- `clear_all_documents` (backend.py lines 289-313).  The Redis key space is
explicit state (first component of the result); `flushOk` is whether the
external `flushdb` call succeeds, and `reinit` the outcome of the external
`check_index_schema` call.  A wrong key returns 403 before any Redis call. -/
def clear_all_documents (admin_key : String) (db : List (String × String))
    (flushOk : Bool) (reinit : Except String Unit) :
    List (String × String) × Except HTTPError ClearResponse :=
  if admin_key ≠ "admin123" then (db, .error ⟨403, "Unauthorized"⟩)
  else if !flushOk then (db, .error ⟨500, "Failed to clear documents."⟩)
  else
    match reinit with
    | .error _ => ([], .error ⟨500, "Failed to clear documents."⟩)
    | .ok _ =>
      ([], .ok ⟨true, "All documents cleared successfully. The index is ready for new uploads."⟩)

/-- `health_check` (backend.py lines 316-325): a static liveness response. -/
def health_check (now : String) : HealthResponse :=
  ⟨"healthy", "Financial Literacy Chatbot", now⟩

/-! ## The four HTTP endpoints, with their `Depends(get_services)` gate.
`health_check` has no such dependency in the source, so `health_endpoint`
ignores the service state. -/

/-- `POST /api/v1/chatbot/chat`. -/
def chat_endpoint (s : Services) (gen : String → String → String)
    (relevant_docs : List LCDoc) (request : ChatRequest) :
    Except HTTPError ChatResponse :=
  match get_services s with
  | .error e => .error e
  | .ok _ => .ok (chat gen relevant_docs request)

/-- `POST /api/v1/chatbot/documents/upload-multiple`. -/
def upload_endpoint (s : Services) (pdfP docxP xlsxP : List Nat → Except String String)
    (split : String → List String) (addDocs : List LCDoc → Except String Unit)
    (now : String) (files : List UploadFile) (user_id : String) :
    List (List LCDoc) × Except HTTPError UploadResponse :=
  match get_services s with
  | .error e => ([], .error e)
  | .ok _ => upload_multiple_documents pdfP docxP xlsxP split addDocs now files user_id

/-- `DELETE /api/v1/chatbot/documents/clear-all`. -/
def clear_endpoint (s : Services) (admin_key : String) (db : List (String × String))
    (flushOk : Bool) (reinit : Except String Unit) :
    List (String × String) × Except HTTPError ClearResponse :=
  match get_services s with
  | .error e => (db, .error e)
  | .ok _ => clear_all_documents admin_key db flushOk reinit

/-- `GET /health`: no `Depends(get_services)` in the source, so the service
state is not consulted. -/
def health_endpoint (_s : Services) (now : String) : Except HTTPError HealthResponse :=
  .ok (health_check now)

/-! ## XLSX parsing (backend.py lines 139-151) -/

/-- One worksheet as seen by `parse_xlsx`: its name and its rows, each row a
list of cells whose `cell.value` is `none` (Python `None`) or rendered by
`str(...)` to the given string. -/
structure XlsxSheet where
  name : String
  rows : List (List (Option String))
deriving DecidableEq, Repr

/-- An openpyxl workbook: its sheets in workbook (`wb.sheetnames`) order. -/
abbrev Workbook := List XlsxSheet

/-- `[str(cell.value) for cell in row if cell.value is not None]`
(backend.py line 147). -/
def rowValues (row : List (Option String)) : List String := row.filterMap id

/-- The body of the row loop (backend.py lines 146-149): append the joined
non-`None` cell values and a newline when the row has any, else leave the
accumulated text unchanged. -/
def xlsxRowStep (t : String) (row : List (Option String)) : String :=
  let row_values := rowValues row
  if !row_values.isEmpty then t ++ joinSep " | " row_values ++ "\n" else t

/-- The body of the sheet loop (backend.py lines 143-150): header line, then
the row loop, then a trailing blank line. -/
def xlsxSheetStep (text : String) (sheet : XlsxSheet) : String :=
  let text := text ++ "Sheet: " ++ sheet.name ++ "\n"
  let text := sheet.rows.foldl xlsxRowStep text
  text ++ "\n"

/-- `parse_xlsx` (backend.py lines 139-151): the imperative `text +=`
accumulation over sheets in workbook order. -/
def parse_xlsx (wb : Workbook) : String := wb.foldl xlsxSheetStep ""

/-- Concatenation of a list of strings. -/
def concatAll : List String → String
  | [] => ""
  | x :: xs => x ++ concatAll xs

/-- One output line per non-empty row (a row is empty when all of its cells
are `None`): the row's non-`None` cell values joined by `" | "`. -/
def rowLines (rows : List (List (Option String))) : String :=
  concatAll ((rows.filter (fun row => !(rowValues row).isEmpty)).map
    (fun row => joinSep " | " (rowValues row) ++ "\n"))

/-- Modelled from the claim's words, for comparison with `parse_xlsx`: for one
sheet, a sheet-name header line followed by one line per non-empty row, the
row's non-`None` cell values joined by the fixed delimiter `" | "`; empty
cells are omitted and fully empty rows produce no line. -/
def sheetLinesSpec (sheet : XlsxSheet) : String :=
  "Sheet: " ++ sheet.name ++ "\n" ++ rowLines sheet.rows

/-! ## Concrete instantiations of the external collaborators, used to
exercise the theorems on closed inputs. -/

/-- A byte-level extractor that always raises (a corrupt input file). -/
def pdfFailStub : List Nat → Except String String := fun _ => .error "corrupt file"

/-- A byte-level extractor that always succeeds with fixed non-blank text. -/
def parseOkStub : List Nat → Except String String := fun _ => .ok "some extracted text"

/-- A byte-level extractor that succeeds with whitespace-only text. -/
def pdfBlankStub : List Nat → Except String String := fun _ => .ok "   "

/-- A trivial text splitter: one chunk per document. -/
def splitStub : String → List String := fun s => [s]

/-- A vector-store write that always succeeds. -/
def addDocsOk : List LCDoc → Except String Unit := fun _ => .ok ()

/-- A supported (PDF) upload whose bytes the extractor rejects. -/
def badPdfFile : UploadFile :=
  { filename := "bad.pdf", content_type := "application/pdf", contents := [37, 80, 68, 70] }

/-- An upload of an unsupported MIME type. -/
def txtFile : UploadFile :=
  { filename := "notes.txt", content_type := "text/plain", contents := [104, 105] }

/-- A supported (PDF) upload from which only whitespace is extracted. -/
def blankPdfFile : UploadFile :=
  { filename := "blank.pdf", content_type := "application/pdf", contents := [32] }

/-- The service state after a failed global initialization: all three client
handles are `None`. -/
def downServices : Services := ⟨false, false, false⟩

/-! ## Helper lemmas -/

theorem chat_confidence_score_eq (gen : String → String → String)
    (docs : List LCDoc) (req : ChatRequest) :
    (chat gen docs req).confidence_score = confidenceScore docs.length := rfl

theorem chat_suggest_ticket_eq (gen : String → String → String)
    (docs : List LCDoc) (req : ChatRequest) :
    (chat gen docs req).suggest_ticket = decide (confidenceScore docs.length < 1/2) := rfl

theorem chat_response_eq (gen : String → String → String)
    (docs : List LCDoc) (req : ChatRequest) :
    (chat gen docs req).response =
      if decide (confidenceScore docs.length < 1/2) then
        gen (documentsContext docs) req.message ++ ESCALATION_NOTICE
      else gen (documentsContext docs) req.message := rfl

theorem confidenceScore_lt_half_iff (n : Nat) : confidenceScore n < 1/2 ↔ n = 0 := by
  constructor
  · intro h
    by_contra hn
    have := half_le_confidenceScore_pos n hn
    linarith
  · intro h; subst h; norm_num [confidenceScore]

theorem confidenceScore_cases (n : Nat) (h : n ≤ 3) :
    confidenceScore n =
      if n = 0 then 1/5 else if n = 1 then 2/3 else if n = 2 then 5/6 else 1 := by
  interval_cases n <;> simp [confidenceScore, min_def] <;> norm_num

theorem confidenceScore_gap (n : Nat) :
    ¬(1/2 ≤ confidenceScore n ∧ confidenceScore n < 2/3) := by
  rintro ⟨h1, h2⟩
  rcases Nat.eq_zero_or_pos n with h | h
  · subst h; norm_num [confidenceScore] at h1
  · have := two_thirds_le_confidenceScore_pos n (Nat.pos_iff_ne_zero.mp h)
    linarith

theorem joinSep_ctx_eq_empty_iff (l : List String) :
    joinSep "\n---\n" l = "" ↔ l = [] ∨ l = [""] := by
  match l with
  | [] => simp [joinSep]
  | [x] => simp [joinSep]
  | x :: y :: xs =>
    simp only [joinSep]
    constructor
    · intro h
      exfalso
      have hl := congrArg String.length h
      rw [String.length_append, String.length_append] at hl
      have hsep : ("\n---\n" : String).length = 5 := rfl
      have h0 : ("" : String).length = 0 := rfl
      omega
    · rintro (h | h) <;> simp at h

theorem map_page_content_empty_cases (docs : List LCDoc) :
    (docs.map (fun d => d.page_content) = [] ∨
      docs.map (fun d => d.page_content) = [""]) ↔
    (docs = [] ∨ ∃ d : LCDoc, docs = [d] ∧ d.page_content = "") := by
  match docs with
  | [] => simp
  | [d] => simp
  | d1 :: d2 :: t => simp

theorem get_services_error (s : Services)
    (h : s.vectorstore = false ∨ s.chat_model = false ∨ s.redis_client = false) :
    get_services s = .error SERVICES_UNAVAILABLE := by
  unfold get_services
  rcases h with h | h | h <;> simp [h]

theorem processFiles_error_of_parse_failure
    (ps : String → Option (List Nat → Except String String))
    (split : String → List String) (user_id now : String)
    (f : UploadFile) (pf : List Nat → Except String String) (e : String)
    (hp : ps f.content_type = some pf) (he : pf f.contents = .error e) :
    ∀ (files : List UploadFile), f ∈ files → ∀ (total docs : Nat) (acc : List LCDoc),
      ∃ g : UploadFile,
        processFiles ps split user_id now files total docs acc =
          .error ⟨500, "Error processing file: " ++ g.filename⟩ := by
  intro files
  induction files with
  | nil => intro hf; cases hf
  | cons file rest ih =>
    intro hf total docs acc
    cases hcase : ps file.content_type with
    | none =>
      have hfr : f ∈ rest := by
        rcases List.mem_cons.mp hf with h | h
        · subst h; rw [hp] at hcase; cases hcase
        · exact h
      simpa [processFiles, hcase] using ih hfr total docs acc
    | some pf0 =>
      cases hparse : pf0 file.contents with
      | error e0 => exact ⟨file, by simp [processFiles, hcase, hparse]⟩
      | ok t =>
        have hfr : f ∈ rest := by
          rcases List.mem_cons.mp hf with h | h
          · subst h
            rw [hp] at hcase
            injection hcase with hpe
            subst hpe
            rw [he] at hparse
            cases hparse
          · exact h
        by_cases hb : isBlankText t
        · simpa [processFiles, hcase, hparse, hb] using ih hfr total docs acc
        · simpa [processFiles, hcase, hparse, hb] using
            ih hfr (total + (split t).length) (docs + 1) (acc ++ chunkDocs file user_id now (split t))

theorem processFiles_no_valid_files
    (ps : String → Option (List Nat → Except String String))
    (split : String → List String) (user_id now : String) :
    ∀ (files : List UploadFile),
      (∀ f ∈ files, ∀ pf, ps f.content_type = some pf →
        ∃ t, pf f.contents = .ok t ∧ isBlankText t = true) →
      ∀ (total docs : Nat) (acc : List LCDoc),
        processFiles ps split user_id now files total docs acc = .ok (total, docs, acc) := by
  intro files
  induction files with
  | nil => intro _ total docs acc; rfl
  | cons file rest ih =>
    intro hv total docs acc
    have hrest := fun f hf => hv f (List.mem_cons_of_mem _ hf)
    cases hcase : ps file.content_type with
    | none => simpa [processFiles, hcase] using ih hrest total docs acc
    | some pf =>
      obtain ⟨t, ht, hb⟩ := hv file (List.mem_cons_self _ _) pf hcase
      simpa [processFiles, hcase, ht, hb] using ih hrest total docs acc

theorem foldl_xlsxRowStep (rows : List (List (Option String))) :
    ∀ a : String, rows.foldl xlsxRowStep a = a ++ rowLines rows := by
  induction rows with
  | nil => intro a; simp [rowLines, concatAll, String.append_empty]
  | cons r rs ih =>
    intro a
    by_cases hr : (rowValues r).isEmpty <;>
      simp [List.foldl_cons, xlsxRowStep, hr, ih, rowLines, List.filter_cons, concatAll,
        String.append_assoc]

theorem xlsxSheetStep_eq (text : String) (sheet : XlsxSheet) :
    xlsxSheetStep text sheet = text ++ (sheetLinesSpec sheet ++ "\n") := by
  show (List.foldl xlsxRowStep (text ++ "Sheet: " ++ sheet.name ++ "\n") sheet.rows) ++ "\n" = _
  rw [foldl_xlsxRowStep]
  simp [sheetLinesSpec, String.append_assoc]

theorem foldl_xlsxSheetStep (wb : Workbook) :
    ∀ a : String,
      wb.foldl xlsxSheetStep a = a ++ concatAll (wb.map (fun s => sheetLinesSpec s ++ "\n")) := by
  induction wb with
  | nil => intro a; simp [concatAll, String.append_empty]
  | cons s ss ih =>
    intro a
    simp [List.foldl_cons, xlsxSheetStep_eq, ih, concatAll, String.append_assoc]

/-! ## Claim theorems -/

/-- C1: for every chat query the returned confidence equals 0.2 when zero
chunks are retrieved and otherwise min(1, 0.5 + (count/3)·0.5); in particular
with zero retrieved chunks confidence is exactly 0.2 and a ticket is
suggested, and with exactly three retrieved chunks confidence is exactly 1.0
and no ticket is suggested.  (Floats are modelled as exact rationals.) -/
theorem chat_confidence_formula (gen : String → String → String)
    (docs : List LCDoc) (req : ChatRequest) (d1 d2 d3 : LCDoc) :
    ((chat gen docs req).confidence_score =
      if docs.length = 0 then 1/5
      else min 1 (1/2 + (docs.length : ℚ) / 3 * (1/2))) ∧
    ((chat gen [] req).confidence_score = 1/5 ∧
      (chat gen [] req).suggest_ticket = true) ∧
    ((chat gen [d1, d2, d3] req).confidence_score = 1 ∧
      (chat gen [d1, d2, d3] req).suggest_ticket = false) := by
  refine ⟨rfl, ⟨rfl, ?_⟩, ?_, ?_⟩
  · rw [chat_suggest_ticket_eq]
    simp only [List.length_nil, decide_eq_true_eq]
    exact (confidenceScore_lt_half_iff 0).mpr rfl
  · rw [chat_confidence_score_eq]
    show confidenceScore 3 = 1
    rw [confidenceScore_cases 3 (by norm_num)]
    norm_num
  · rw [chat_suggest_ticket_eq]
    simp only [decide_eq_false_iff_not]
    rw [show ([d1, d2, d3] : List LCDoc).length = 3 from rfl, confidenceScore_lt_half_iff]
    norm_num

/-- C2: if any supported file of an upload batch raises a parse exception, the
whole ingestion request fails with HTTP 500, and the vector-store write trace
is empty: no chunks from any file of the batch — including files processed
successfully before the failing one — are written. -/
theorem upload_parse_failure_aborts (pdfP docxP xlsxP : List Nat → Except String String)
    (split : String → List String) (addDocs : List LCDoc → Except String Unit)
    (now : String) (files : List UploadFile) (user_id : String)
    (f : UploadFile) (pf : List Nat → Except String String) (e : String)
    (hf : f ∈ files) (hp : parsersDict pdfP docxP xlsxP f.content_type = some pf)
    (he : pf f.contents = .error e) :
    (upload_multiple_documents pdfP docxP xlsxP split addDocs now files user_id).1 = [] ∧
    ∃ err : HTTPError,
      (upload_multiple_documents pdfP docxP xlsxP split addDocs now files user_id).2 =
        .error err ∧ err.status_code = 500 := by
  obtain ⟨g, hg⟩ := processFiles_error_of_parse_failure (parsersDict pdfP docxP xlsxP)
    split user_id now f pf e hp he files hf 0 0 []
  have hne : files.isEmpty = false := by
    cases files with
    | nil => cases hf
    | cons _ _ => rfl
  unfold upload_multiple_documents
  rw [hne, hg]
  exact ⟨rfl, ⟨500, "Error processing file: " ++ g.filename⟩, rfl, rfl⟩

/-- Witness for C2: a one-file batch whose single PDF is corrupt. -/
theorem upload_parse_failure_aborts_witness :
    (upload_multiple_documents pdfFailStub parseOkStub parseOkStub splitStub addDocsOk
        "2026-01-01" [badPdfFile] "u").1 = [] ∧
    ∃ err : HTTPError,
      (upload_multiple_documents pdfFailStub parseOkStub parseOkStub splitStub addDocsOk
          "2026-01-01" [badPdfFile] "u").2 = .error err ∧ err.status_code = 500 :=
  upload_parse_failure_aborts pdfFailStub parseOkStub parseOkStub splitStub addDocsOk
    "2026-01-01" [badPdfFile] "u" badPdfFile pdfFailStub "corrupt file"
    (List.mem_singleton.mpr rfl) rfl rfl

/-- C3: the confidence score is a non-decreasing function of the
retrieved-chunk count alone — it is invariant under the generation function,
the chunk contents and the request, never exceeds 1, and equals the floor 0.2
exactly when zero chunks are retrieved. -/
theorem chat_confidence_monotone (gen gen' : String → String → String)
    (docs docs' : List LCDoc) (req req' : ChatRequest)
    (h : docs.length ≤ docs'.length) :
    (chat gen docs req).confidence_score ≤ (chat gen' docs' req').confidence_score ∧
    (chat gen' docs' req').confidence_score ≤ 1 ∧
    ((chat gen docs req).confidence_score = 1/5 ↔ docs.length = 0) ∧
    (docs.length = docs'.length →
      (chat gen docs req).confidence_score = (chat gen' docs' req').confidence_score) := by
  rw [chat_confidence_score_eq, chat_confidence_score_eq]
  exact ⟨confidenceScore_mono h, confidenceScore_le_one _,
    confidenceScore_eq_floor_iff _, fun he => by rw [he]⟩

/-- Witness for C3: zero retrieved chunks against one retrieved chunk, with
different generation functions and requests. -/
theorem chat_confidence_monotone_witness :
    (chat (fun _ _ => "a") [] ⟨"q", "u"⟩).confidence_score ≤
      (chat (fun _ _ => "b") [{ page_content := "t" }] ⟨"r", "v"⟩).confidence_score :=
  (chat_confidence_monotone (fun _ _ => "a") (fun _ _ => "b") [] [{ page_content := "t" }]
    ⟨"q", "u"⟩ ⟨"r", "v"⟩ (by decide)).1

/-- C4: a ticket is suggested exactly when the confidence score is below 0.5,
and exactly then the fixed human-escalation notice is appended to the
generated response text; otherwise the generated text is returned as is. -/
theorem chat_suggest_ticket_iff (gen : String → String → String)
    (docs : List LCDoc) (req : ChatRequest) :
    ((chat gen docs req).suggest_ticket = true ↔
      (chat gen docs req).confidence_score < 1/2) ∧
    ((chat gen docs req).response =
      if (chat gen docs req).suggest_ticket then
        gen (documentsContext docs) req.message ++ ESCALATION_NOTICE
      else gen (documentsContext docs) req.message) := by
  constructor
  · rw [chat_suggest_ticket_eq, chat_confidence_score_eq]
    exact decide_eq_true_iff
  · rfl

/-- C5 counterexample: with exactly one retrieved chunk whose text is empty, a
chunk was retrieved and yet the placeholder is substituted (the joined context
is falsy), so the substitution is not "exactly when no chunks are
retrieved". -/
theorem context_placeholder_counterexample :
    ([({ page_content := "" } : LCDoc)].length ≠ 0) ∧
    documentsContext [{ page_content := "" }] = NO_CONTEXT_PLACEHOLDER ∧
    (chat (fun ctx _ => ctx) [{ page_content := "" }] ⟨"q", "u"⟩).response =
      NO_CONTEXT_PLACEHOLDER := by
  refine ⟨by decide, rfl, ?_⟩
  rw [chat_response_eq]
  rw [show decide (confidenceScore ([({ page_content := "" } : LCDoc)]).length < 1/2) = false
    by rw [show ([({ page_content := "" } : LCDoc)]).length = 1 from rfl]
       simp only [decide_eq_false_iff_not, confidenceScore_lt_half_iff]
       norm_num]
  rfl

/-- C5 amended: the context block placed into the prompt is the retrieved
chunks' texts joined with the fixed separator, and the fixed placeholder is
substituted exactly when the joined string is empty — that is, when no chunks
are retrieved or when exactly one chunk with empty text is retrieved. -/
theorem context_placeholder_amended (docs : List LCDoc) :
    (documentsContext docs =
      if joinSep "\n---\n" (docs.map (fun d => d.page_content)) = "" then
        NO_CONTEXT_PLACEHOLDER
      else joinSep "\n---\n" (docs.map (fun d => d.page_content))) ∧
    (joinSep "\n---\n" (docs.map (fun d => d.page_content)) = "" ↔
      docs = [] ∨ ∃ d : LCDoc, docs = [d] ∧ d.page_content = "") := by
  exact ⟨rfl, (joinSep_ctx_eq_empty_iff _).trans (map_page_content_empty_cases docs)⟩

/-- C6 counterexample: with all three client handles uninitialized (the
dependency-unavailable condition, under which `get_services` raises 503), the
`/health` endpoint still answers 200 with a "healthy" body instead of failing
with a service-unavailable signal. -/
theorem health_endpoint_counterexample :
    get_services downServices = .error SERVICES_UNAVAILABLE ∧
    health_endpoint downServices "2026-10-12T00:00:00" =
      .ok ⟨"healthy", "Financial Literacy Chatbot", "2026-10-12T00:00:00"⟩ :=
  ⟨rfl, rfl⟩

/-- C6 amended: when any of the embedding/generation/storage client handles
failed to initialize, every endpoint guarded by `Depends(get_services)` —
chat, upload-multiple and clear-all — fails fast with HTTP 503 for every
request, while the unguarded `/health` endpoint still returns its static
healthy response. -/
theorem endpoints_fail_fast (s : Services)
    (h : s.vectorstore = false ∨ s.chat_model = false ∨ s.redis_client = false)
    (gen : String → String → String) (docs : List LCDoc) (req : ChatRequest)
    (pdfP docxP xlsxP : List Nat → Except String String)
    (split : String → List String) (addDocs : List LCDoc → Except String Unit)
    (now now2 : String) (files : List UploadFile) (user_id admin_key : String)
    (db : List (String × String)) (flushOk : Bool) (reinit : Except String Unit) :
    chat_endpoint s gen docs req = .error SERVICES_UNAVAILABLE ∧
    upload_endpoint s pdfP docxP xlsxP split addDocs now files user_id =
      ([], .error SERVICES_UNAVAILABLE) ∧
    clear_endpoint s admin_key db flushOk reinit = (db, .error SERVICES_UNAVAILABLE) ∧
    health_endpoint s now2 = .ok (health_check now2) := by
  have hs := get_services_error s h
  exact ⟨by rw [chat_endpoint, hs], by rw [upload_endpoint, hs], by rw [clear_endpoint, hs], rfl⟩

/-- Witness for C6 (amended): all clients down, concrete requests. -/
theorem endpoints_fail_fast_witness :
    chat_endpoint downServices (fun _ _ => "r") [] ⟨"m", "u"⟩ = .error SERVICES_UNAVAILABLE :=
  (endpoints_fail_fast downServices (Or.inl rfl) (fun _ _ => "r") [] ⟨"m", "u"⟩
    parseOkStub parseOkStub parseOkStub splitStub addDocsOk
    "t" "t2" [] "u" "k" [] true (.ok ())).1

/-- C7: a clear-all call with a wrong admin key returns HTTP 403 and has no
side effects: the Redis key space (which holds the vector store) is returned
unchanged, both for the handler body and for the full endpoint with services
available. -/
theorem clear_all_wrong_key (admin_key : String) (db : List (String × String))
    (flushOk : Bool) (reinit : Except String Unit) (h : admin_key ≠ "admin123") :
    clear_all_documents admin_key db flushOk reinit = (db, .error ⟨403, "Unauthorized"⟩) ∧
    clear_endpoint ⟨true, true, true⟩ admin_key db flushOk reinit =
      (db, .error ⟨403, "Unauthorized"⟩) := by
  have h1 : clear_all_documents admin_key db flushOk reinit =
      (db, .error ⟨403, "Unauthorized"⟩) := by
    simp [clear_all_documents, h]
  exact ⟨h1, h1⟩

/-- Witness for C7: a concrete wrong key against a non-empty key space. -/
theorem clear_all_wrong_key_witness :
    clear_all_documents "wrong-key" [("doc:1", "chunk")] true (.ok ()) =
      ([("doc:1", "chunk")], .error ⟨403, "Unauthorized"⟩) :=
  (clear_all_wrong_key "wrong-key" [("doc:1", "chunk")] true (.ok ()) (by decide)).1

/-- C8 counterexample: a non-empty batch containing a single corrupt PDF has
zero valid files in the claim's sense — its only file is of a supported MIME
type but yields no extracted text at all, its parse raising instead — yet the
ingestion call fails with HTTP 500 rather than returning
`documents_processed = 0` and `total_chunks_created = 0`. -/
theorem upload_zero_valid_counterexample :
    parsersDict pdfFailStub parseOkStub parseOkStub badPdfFile.content_type =
      some pdfFailStub ∧
    pdfFailStub badPdfFile.contents = .error "corrupt file" ∧
    (upload_multiple_documents pdfFailStub parseOkStub parseOkStub splitStub addDocsOk
        "2026-01-01" [badPdfFile] "u").2 =
      .error ⟨500, "Error processing file: bad.pdf"⟩ :=
  ⟨rfl, rfl, rfl⟩

/-- C8 amended: for every non-empty upload batch in which every file is either
of an unsupported MIME type or parses successfully to empty/whitespace-only
text, the ingestion call returns `documents_processed = 0` and
`total_chunks_created = 0` and performs no vector-store write call. -/
theorem upload_zero_valid_files (pdfP docxP xlsxP : List Nat → Except String String)
    (split : String → List String) (addDocs : List LCDoc → Except String Unit)
    (now : String) (files : List UploadFile) (user_id : String)
    (hne : files ≠ [])
    (hv : ∀ f ∈ files, ∀ pf, parsersDict pdfP docxP xlsxP f.content_type = some pf →
      ∃ t, pf f.contents = .ok t ∧ isBlankText t = true) :
    upload_multiple_documents pdfP docxP xlsxP split addDocs now files user_id =
      ([], .ok { success := true
                 message := "Successfully processed 0 files into 0 chunks."
                 documents_processed := 0
                 total_chunks_created := 0 }) := by
  have hproc := processFiles_no_valid_files (parsersDict pdfP docxP xlsxP)
    split user_id now files hv 0 0 []
  have hie : files.isEmpty = false := by
    cases files with
    | nil => exact absurd rfl hne
    | cons _ _ => rfl
  unfold upload_multiple_documents
  rw [hie, hproc]
  rfl

/-- Witness for C8 (amended): a batch of one unsupported text file and one
supported PDF whose extracted text is whitespace. -/
theorem upload_zero_valid_files_witness :
    upload_multiple_documents pdfBlankStub parseOkStub parseOkStub splitStub addDocsOk
        "2026-01-01" [txtFile, blankPdfFile] "u" =
      ([], .ok { success := true
                 message := "Successfully processed 0 files into 0 chunks."
                 documents_processed := 0
                 total_chunks_created := 0 }) :=
  upload_zero_valid_files pdfBlankStub parseOkStub parseOkStub splitStub addDocsOk
    "2026-01-01" [txtFile, blankPdfFile] "u" (by decide) (by
      intro f hf pf hpf
      rcases List.mem_cons.mp hf with h | h
      · subst h
        exact Option.noConfusion
          (show (none : Option (List Nat → Except String String)) = some pf from hpf)
      · rcases List.mem_cons.mp h with h2 | h2
        · subst h2
          have h3 : some pdfBlankStub = some pf := hpf
          obtain rfl := (Option.some.injEq _ _ ▸ h3 : pdfBlankStub = pf)
          exact ⟨"   ", rfl, rfl⟩
        · cases h2)

/-- C9: XLSX parsing iterates sheets in workbook order, emitting per sheet a
sheet-name header line followed by one line per non-empty row with that row's
non-empty cell values joined by `" | "` (plus a trailing blank line per sheet,
which the claim does not mention and does not contradict); empty cells are
omitted and fully empty rows produce no line — `parse_xlsx` equals the
description `sheetLinesSpec` modelled from the claim's words. -/
theorem parse_xlsx_line_structure (wb : Workbook) :
    parse_xlsx wb = concatAll (wb.map (fun sheet => sheetLinesSpec sheet ++ "\n")) := by
  unfold parse_xlsx
  rw [foldl_xlsxSheetStep]
  exact String.empty_append _

/-- C10: with at most three retrieved chunks (the retriever's k = 3), the
confidence score takes exactly the four values 0.2, 2/3, 5/6, 1 for 0, 1, 2, 3
retrieved chunks respectively; consequently a ticket is suggested iff zero
chunks were retrieved, and the confidence never lies in [0.5, 2/3). -/
theorem chat_confidence_four_values (gen : String → String → String)
    (docs : List LCDoc) (req : ChatRequest) (h : docs.length ≤ 3) :
    ((chat gen docs req).confidence_score =
      if docs.length = 0 then 1/5 else if docs.length = 1 then 2/3
      else if docs.length = 2 then 5/6 else 1) ∧
    ((chat gen docs req).suggest_ticket = true ↔ docs.length = 0) ∧
    ¬(1/2 ≤ (chat gen docs req).confidence_score ∧
      (chat gen docs req).confidence_score < 2/3) := by
  refine ⟨?_, ?_, ?_⟩
  · rw [chat_confidence_score_eq]
    exact confidenceScore_cases docs.length h
  · rw [chat_suggest_ticket_eq]
    simp only [decide_eq_true_eq]
    exact confidenceScore_lt_half_iff docs.length
  · rw [chat_confidence_score_eq]
    exact confidenceScore_gap docs.length

/-- Witness for C10: zero retrieved chunks. -/
theorem chat_confidence_four_values_witness :
    ((chat (fun _ _ => "r") [] ⟨"m", "u"⟩).suggest_ticket = true ↔
      ([] : List LCDoc).length = 0) :=
  (chat_confidence_four_values (fun _ _ => "r") [] ⟨"m", "u"⟩ (by decide)).2.1

end FinWise
